import Mathlib

/-!
Verification of the reservation concurrency core described in the
tech-guide article on optimistic locking (`recipes/handling-concurrency.md`).

The article's `InventoryItem.createReservation` aggregate method is embedded
directly from the TypeScript snippet.  Three pieces of the core are not
present in the repository's source and are modelled from the spec, each
marked in its doc comment: the interval-overlap predicate (elided in the
snippet as `/** Find overlaping reservation logic */`), the store's
version-checked commit (performed by MikroORM, outside the repository), and
the `@RetryOnError` decorator's loop (its implementation is not in the
repository).  Dates are embedded as `Int` (epoch milliseconds).
-/

namespace TechGuide

/-- A half-open time interval `[startDate, endDate)`. -/
structure Interval where
  startDate : Int
  endDate : Int
deriving DecidableEq, Repr

/-- Modelled from the spec: the interval-overlap predicate.  The source's
`createReservation` elides it (`this.reservations.some(/** Find overlaping
reservation logic */)`); spec §4.1 defines `Overlaps(a, b)` as
`a.start < b.end AND b.start < a.end` on half-open intervals. -/
def overlaps (a b : Interval) : Bool :=
  a.startDate < b.endDate && b.startDate < a.endDate

/-- The `Reservation` entity from `reservation.entity.ts`: `startDate`,
`endDate`, `userId`, and the back-reference to the owning `InventoryItem`
(kept as its id). -/
structure Reservation where
  startDate : Int
  endDate : Int
  userId : Nat
  inventoryItemId : Nat
deriving DecidableEq, Repr

/-- The interval claimed by a reservation. -/
def Reservation.interval (r : Reservation) : Interval :=
  ⟨r.startDate, r.endDate⟩

/-- The `InventoryItem` aggregate root from `inventory-item.entity.ts`:
identity, the MikroORM-managed `version` field (starts at 1), `updatedAt`
(from the `AggregateRoot` base), and the owned reservation collection. -/
structure InventoryItem where
  id : Nat
  version : Nat
  updatedAt : Int
  reservations : List Reservation
deriving DecidableEq, Repr

/-- The exception `ReservationOverlapException` as thrown at the source's call site:
`throw new ReservationOverlapException()` — constructed with no arguments,
so the exception value carries no data. -/
inductive ReservationOverlapException where
  | mk
deriving DecidableEq, Repr

/-- The method `InventoryItem.createReservation(startDate, endDate, userId)` from the
source, in statement order: test every existing reservation for overlap
with the candidate; on a hit, throw `ReservationOverlapException` (leaving
`this` untouched); otherwise construct the `Reservation` owned by this
item, add it to the collection and set `this.updatedAt = new Date()`.
The clock read `new Date()` is passed in as `now`; the mutated `this` is
returned alongside the optional exception. -/
def InventoryItem.createReservation (item : InventoryItem)
    (startDate endDate : Int) (userId : Nat) (now : Int) :
    InventoryItem × Option ReservationOverlapException :=
  let overlapingReservation :=
    item.reservations.any (fun r => overlaps r.interval ⟨startDate, endDate⟩)
  if overlapingReservation then
    (item, some ReservationOverlapException.mk)
  else
    let reservation : Reservation := ⟨startDate, endDate, userId, item.id⟩
    ({ item with
        reservations := item.reservations ++ [reservation],
        updatedAt := now },
      none)

/-- The no-overlap invariant on a reservation collection: no two distinct
reservations in the list have overlapping intervals. -/
def pairwiseNonOverlapping (l : List Reservation) : Prop :=
  l.Pairwise (fun a b => overlaps a.interval b.interval = false)

/-- States of an `InventoryItem` reachable by any sequence of successful
`createReservation` calls starting from an empty reservation collection. -/
inductive Reachable : InventoryItem → Prop where
  | init (id v : Nat) (u : Int) : Reachable ⟨id, v, u, []⟩
  | step (item item' : InventoryItem) (s e : Int) (uid : Nat) (now : Int) :
      Reachable item →
      item.createReservation s e uid now = (item', none) →
      Reachable item'

/-- Result of the store's version-checked commit. -/
inductive CommitResult where
  | ok (newVersion : Nat)
  | optimisticLockConflict
deriving DecidableEq, Repr

/-- Persisted state of a single resource at the storage boundary. -/
structure Store where
  version : Nat
  state : InventoryItem
deriving DecidableEq, Repr

/-- Modelled from the spec: the storage boundary's atomic commit, performed
in the source by MikroORM's `flush` on the `@Property({ version: true })`
field and not part of this repository.  Spec §4.3/§6: check that the
persisted version still equals `expectedVersion`; if so persist `newState`
and increment the version by 1, else reject with the optimistic-lock
conflict and persist nothing. -/
def commitIfVersionMatches (store : Store) (newState : InventoryItem)
    (expectedVersion : Nat) : Store × CommitResult :=
  if store.version = expectedVersion then
    ({ version := store.version + 1, state := newState },
      CommitResult.ok (store.version + 1))
  else
    (store, CommitResult.optimisticLockConflict)

/-- Outcome of one full load-mutate-commit attempt, as seen by the retry
loop. -/
inductive AttemptResult where
  | ok
  | optimisticLockConflict
  | overlapConflict
deriving DecidableEq, Repr

/-- Final outcome surfaced by the retry orchestrator. -/
inductive RetryResult where
  | ok
  | overlapConflict
  | retryExhausted (last : AttemptResult)
deriving DecidableEq, Repr

/-- Modelled from the spec: the `@RetryOnError(OptimisticLockError)`
decorator's loop, whose implementation is not in the repository.  Spec
§4.4: run load-mutate-commit attempts (attempt `i` behaves as `run i`);
success and `OverlapConflict` return immediately; `OptimisticLockConflict`
discards the snapshot and retries from a fresh load, up to the remaining
attempt budget; an exhausted budget surfaces `RetryExhausted` wrapping the
last conflict.  Returns the surfaced result together with the number of
load attempts performed. -/
def executeWithRetryAux (run : Nat → AttemptResult) :
    Nat → Nat → RetryResult × Nat
  | _, 0 => (RetryResult.retryExhausted AttemptResult.optimisticLockConflict, 0)
  | i, remaining + 1 =>
    match run i with
    | AttemptResult.ok => (RetryResult.ok, 1)
    | AttemptResult.overlapConflict => (RetryResult.overlapConflict, 1)
    | AttemptResult.optimisticLockConflict =>
      let p := executeWithRetryAux run (i + 1) remaining
      (p.1, p.2 + 1)

/-- Modelled from the spec: `ExecuteWithRetry(mutation, maxAttempts)`
starting at attempt 0 (spec §4.4). -/
def executeWithRetry (run : Nat → AttemptResult) (maxAttempts : Nat) :
    RetryResult × Nat :=
  executeWithRetryAux run 0 maxAttempts

/-- C2: the overlap evaluator returns `true` iff `a.start < b.end` and
`b.start < a.end`; consequently separated or touching intervals
(`a.end ≤ b.start` or `b.end ≤ a.start`) do not overlap, and identical
valid intervals do overlap. -/
theorem overlaps_spec (a b : Interval) :
    (overlaps a b = true ↔
      (a.startDate < b.endDate ∧ b.startDate < a.endDate))
    ∧ (a.endDate ≤ b.startDate ∨ b.endDate ≤ a.startDate →
        overlaps a b = false)
    ∧ (a.startDate < a.endDate → overlaps a a = true) := by
  refine ⟨by simp [overlaps], ?_, ?_⟩
  · intro h
    simp only [overlaps, Bool.and_eq_false_iff, decide_eq_false_iff_not, not_lt]
    omega
  · intro h
    simp [overlaps, h]

/-- Witness for C2: touching intervals `[0,1)` and `[1,2)` do not overlap,
while the identical valid intervals `[0,2)` and `[0,2)` do. -/
theorem overlaps_spec_witness :
    overlaps ⟨0, 1⟩ ⟨1, 2⟩ = false ∧ overlaps ⟨0, 2⟩ ⟨0, 2⟩ = true :=
  ⟨(overlaps_spec ⟨0, 1⟩ ⟨1, 2⟩).2.1 (Or.inl (by decide)),
    (overlaps_spec ⟨0, 2⟩ ⟨0, 2⟩).2.2 (by decide)⟩

/-- C3: a commit submitted with `loadedVersion` succeeds with
`newVersion = loadedVersion + 1` and persists the new state when the
persisted version equals `loadedVersion`; otherwise it is rejected with the
optimistic-lock conflict and the stored state is unchanged. -/
theorem commitIfVersionMatches_spec (store : Store)
    (newState : InventoryItem) (loadedVersion : Nat) :
    (store.version = loadedVersion →
      commitIfVersionMatches store newState loadedVersion =
        (⟨loadedVersion + 1, newState⟩, CommitResult.ok (loadedVersion + 1)))
    ∧ (store.version ≠ loadedVersion →
      commitIfVersionMatches store newState loadedVersion =
        (store, CommitResult.optimisticLockConflict)) := by
  constructor
  · intro h
    simp [commitIfVersionMatches, h]
  · intro h
    simp [commitIfVersionMatches, h]

/-- Witness for C3: a matching version commits to version 2; a stale
version is rejected and the store keeps its state. -/
theorem commitIfVersionMatches_spec_witness :
    commitIfVersionMatches ⟨1, ⟨0, 1, 0, []⟩⟩ ⟨0, 1, 5, []⟩ 1 =
      (⟨2, ⟨0, 1, 5, []⟩⟩, CommitResult.ok 2)
    ∧ commitIfVersionMatches ⟨2, ⟨0, 1, 0, []⟩⟩ ⟨0, 1, 5, []⟩ 1 =
      (⟨2, ⟨0, 1, 0, []⟩⟩, CommitResult.optimisticLockConflict) :=
  ⟨(commitIfVersionMatches_spec ⟨1, ⟨0, 1, 0, []⟩⟩ ⟨0, 1, 5, []⟩ 1).1 rfl,
    (commitIfVersionMatches_spec ⟨2, ⟨0, 1, 0, []⟩⟩ ⟨0, 1, 5, []⟩ 1).2
      (by decide)⟩

/-- Against a run in which every attempt hits the optimistic-lock conflict,
the retry loop consumes its whole budget, one load per budget unit, and
surfaces exhaustion. -/
theorem executeWithRetryAux_allOptLock (run : Nat → AttemptResult)
    (h : ∀ i, run i = AttemptResult.optimisticLockConflict) :
    ∀ n i, executeWithRetryAux run i n =
      (RetryResult.retryExhausted AttemptResult.optimisticLockConflict, n) := by
  intro n
  induction n with
  | zero => intro i; rfl
  | succ n ih =>
    intro i
    simp [executeWithRetryAux, h i, ih (i + 1)]

/-- C5: with `maxAttempts = 3` against a store that always reports the
optimistic-lock conflict, `executeWithRetry` performs exactly 3 load
attempts and returns `RetryExhausted` wrapping the last conflict. -/
theorem executeWithRetry_exhaustion (run : Nat → AttemptResult)
    (h : ∀ i, run i = AttemptResult.optimisticLockConflict) :
    executeWithRetry run 3 =
      (RetryResult.retryExhausted AttemptResult.optimisticLockConflict, 3) :=
  executeWithRetryAux_allOptLock run h 3 0

/-- Witness for C5: the constant optimistic-lock-conflict run. -/
theorem executeWithRetry_exhaustion_witness :
    executeWithRetry (fun _ => AttemptResult.optimisticLockConflict) 3 =
      (RetryResult.retryExhausted AttemptResult.optimisticLockConflict, 3) :=
  executeWithRetry_exhaustion (fun _ => AttemptResult.optimisticLockConflict)
    (fun _ => rfl)

/-- C6 counterexample: `createReservation` with `startDate = endDate = 5`
on a resource with no reservations does not fail at all — it succeeds and
mutates the resource (adds a degenerate reservation and updates
`updatedAt`), contradicting the claimed `ValidationError` with no
mutation. -/
theorem createReservation_no_validation_counterexample :
    (InventoryItem.createReservation ⟨1, 1, 0, []⟩ 5 5 7 99).2 = none
    ∧ (InventoryItem.createReservation ⟨1, 1, 0, []⟩ 5 5 7 99).1 =
        ⟨1, 1, 99, [⟨5, 5, 7, 1⟩]⟩ := by
  constructor <;> rfl

/-- C6 (amended): `createReservation` performs no date validation; a call
with `startDate ≥ endDate` goes through the ordinary overlap path — it
throws the overlap exception and leaves the resource unchanged when some
existing reservation overlaps the candidate, and otherwise succeeds,
adding the degenerate reservation and updating `updatedAt`. -/
theorem createReservation_degenerate_dates (item : InventoryItem)
    (s e : Int) (uid : Nat) (now : Int) (hse : e ≤ s) :
    (item.reservations.any (fun r => overlaps r.interval ⟨s, e⟩) = true →
      item.createReservation s e uid now =
        (item, some ReservationOverlapException.mk))
    ∧ (item.reservations.any (fun r => overlaps r.interval ⟨s, e⟩) = false →
      item.createReservation s e uid now =
        ({ item with
            reservations := item.reservations ++ [⟨s, e, uid, item.id⟩],
            updatedAt := now }, none)) := by
  constructor <;> intro h <;> simp [InventoryItem.createReservation, h]

/-- Witness for C6 (amended): start = end = 5 on an empty resource
succeeds and mutates. -/
theorem createReservation_degenerate_dates_witness :
    InventoryItem.createReservation ⟨1, 1, 0, []⟩ 5 5 7 99 =
      (⟨1, 1, 99, [⟨5, 5, 7, 1⟩]⟩, none) :=
  (createReservation_degenerate_dates ⟨1, 1, 0, []⟩ 5 5 7 99
    (by decide)).2 (by decide)

/-- C7 counterexample: two resources whose conflicting reservations differ
(userId 42 vs 43) surface the very same exception value, which equals the
bare `ReservationOverlapException.mk`; the error therefore cannot name the
conflicting reservation. -/
theorem overlapException_no_identity_counterexample :
    (InventoryItem.createReservation ⟨1, 1, 0, [⟨0, 10, 42, 1⟩]⟩ 2 3 7 99).2
      = (InventoryItem.createReservation
          ⟨1, 1, 0, [⟨0, 10, 43, 1⟩]⟩ 2 3 7 99).2
    ∧ (InventoryItem.createReservation ⟨1, 1, 0, [⟨0, 10, 42, 1⟩]⟩ 2 3 7 99).2
        = some ReservationOverlapException.mk
    ∧ (⟨0, 10, 42, 1⟩ : Reservation) ≠ ⟨0, 10, 43, 1⟩ := by
  refine ⟨rfl, rfl, by decide⟩

/-- C7 (amended): `createReservation` fails iff some existing reservation
overlaps the candidate interval, but the exception it throws carries no
data — in particular it does not identify the conflicting reservation
(the exception type has a single, argument-free value). -/
theorem createReservation_error_iff_overlap (item : InventoryItem)
    (s e : Int) (uid : Nat) (now : Int) :
    ((item.createReservation s e uid now).2.isSome = true ↔
      ∃ r ∈ item.reservations, overlaps r.interval ⟨s, e⟩ = true)
    ∧ ∀ ex ex' : ReservationOverlapException, ex = ex' := by
  constructor
  · rw [← List.any_eq_true]
    cases hc : item.reservations.any (fun r => overlaps r.interval ⟨s, e⟩) <;>
      simp [InventoryItem.createReservation, hc]
  · intro ex ex'
    cases ex
    cases ex'
    rfl

/-- Witness for C7 (amended): a candidate overlapping the single existing
reservation makes the operation fail. -/
theorem createReservation_error_iff_overlap_witness :
    (InventoryItem.createReservation
      ⟨1, 1, 0, [⟨0, 10, 42, 1⟩]⟩ 2 3 7 99).2.isSome = true :=
  (createReservation_error_iff_overlap ⟨1, 1, 0, [⟨0, 10, 42, 1⟩]⟩
    2 3 7 99).1.mpr ⟨⟨0, 10, 42, 1⟩, by decide, by decide⟩

/-- C8: when no existing reservation overlaps the candidate interval,
`createReservation` succeeds, appends a new reservation owned by the
resource (carrying the given dates and user), updates `updatedAt`, and
leaves `version` and `id` unchanged. -/
theorem createReservation_success (item : InventoryItem) (s e : Int)
    (uid : Nat) (now : Int)
    (h : item.reservations.any (fun r => overlaps r.interval ⟨s, e⟩) = false) :
    (item.createReservation s e uid now).2 = none
    ∧ (item.createReservation s e uid now).1.reservations =
        item.reservations ++ [⟨s, e, uid, item.id⟩]
    ∧ (item.createReservation s e uid now).1.updatedAt = now
    ∧ (item.createReservation s e uid now).1.version = item.version
    ∧ (item.createReservation s e uid now).1.id = item.id := by
  simp [InventoryItem.createReservation, h]

/-- Witness for C8: adding `[20,30)` next to an existing `[0,10)`. -/
theorem createReservation_success_witness :
    (InventoryItem.createReservation
        ⟨1, 4, 0, [⟨0, 10, 42, 1⟩]⟩ 20 30 7 99).2 = none
    ∧ (InventoryItem.createReservation
        ⟨1, 4, 0, [⟨0, 10, 42, 1⟩]⟩ 20 30 7 99).1.reservations =
        [⟨0, 10, 42, 1⟩] ++ [⟨20, 30, 7, 1⟩]
    ∧ (InventoryItem.createReservation
        ⟨1, 4, 0, [⟨0, 10, 42, 1⟩]⟩ 20 30 7 99).1.updatedAt = 99
    ∧ (InventoryItem.createReservation
        ⟨1, 4, 0, [⟨0, 10, 42, 1⟩]⟩ 20 30 7 99).1.version = 4
    ∧ (InventoryItem.createReservation
        ⟨1, 4, 0, [⟨0, 10, 42, 1⟩]⟩ 20 30 7 99).1.id = 1 :=
  createReservation_success ⟨1, 4, 0, [⟨0, 10, 42, 1⟩]⟩ 20 30 7 99 (by decide)

/-- C9: conflicts are deterministic — if `createReservation` fails with the
overlap exception on some resource state and input, re-running it on the
same unchanged state with the identical request reproduces exactly the
same failure (whatever the clock reads). -/
theorem createReservation_conflict_deterministic (item : InventoryItem)
    (s e : Int) (uid : Nat) (now now' : Int)
    (err : ReservationOverlapException)
    (h : (item.createReservation s e uid now).2 = some err) :
    item.createReservation s e uid now' = (item, some err) := by
  cases err
  by_cases hc :
      (item.reservations.any fun r => overlaps r.interval ⟨s, e⟩) = true
  · simp [InventoryItem.createReservation, hc]
  · simp [InventoryItem.createReservation, hc] at h

/-- Witness for C9: the conflict on the overlapping candidate `[2,3)` is
reproduced at a different clock reading. -/
theorem createReservation_conflict_deterministic_witness :
    InventoryItem.createReservation ⟨1, 1, 0, [⟨0, 10, 42, 1⟩]⟩ 2 3 7 123 =
      (⟨1, 1, 0, [⟨0, 10, 42, 1⟩]⟩, some ReservationOverlapException.mk) :=
  createReservation_conflict_deterministic ⟨1, 1, 0, [⟨0, 10, 42, 1⟩]⟩
    2 3 7 99 123 ReservationOverlapException.mk (by decide)

/-- C10: `createReservation` is atomic on a business-rule failure — when it
throws the overlap exception, the resource's reservation set and its
`updatedAt` timestamp are exactly as they were before the call. -/
theorem createReservation_atomic_on_conflict (item : InventoryItem)
    (s e : Int) (uid : Nat) (now : Int)
    (h : (item.createReservation s e uid now).2.isSome = true) :
    (item.createReservation s e uid now).1.reservations = item.reservations
    ∧ (item.createReservation s e uid now).1.updatedAt = item.updatedAt := by
  by_cases hc :
      (item.reservations.any fun r => overlaps r.interval ⟨s, e⟩) = true
  · simp [InventoryItem.createReservation, hc]
  · simp [InventoryItem.createReservation, hc] at h

/-- Witness for C10: the failed call on the overlapping candidate `[2,3)`
leaves the reservation list and `updatedAt` untouched. -/
theorem createReservation_atomic_on_conflict_witness :
    (InventoryItem.createReservation
        ⟨1, 1, 0, [⟨0, 10, 42, 1⟩]⟩ 2 3 7 99).1.reservations =
      [⟨0, 10, 42, 1⟩]
    ∧ (InventoryItem.createReservation
        ⟨1, 1, 0, [⟨0, 10, 42, 1⟩]⟩ 2 3 7 99).1.updatedAt = 0 :=
  createReservation_atomic_on_conflict ⟨1, 1, 0, [⟨0, 10, 42, 1⟩]⟩
    2 3 7 99 (by decide)

/-- Shape of a successful `createReservation` call, shared by the proofs
below: with no overlapping reservation, the new reservation is appended and
`updatedAt` is set, everything else unchanged. -/
theorem createReservation_of_any_eq_false (item : InventoryItem)
    (s e : Int) (uid : Nat) (now : Int)
    (h : item.reservations.any (fun r => overlaps r.interval ⟨s, e⟩) = false) :
    item.createReservation s e uid now =
      ({ item with
          reservations := item.reservations ++ [⟨s, e, uid, item.id⟩],
          updatedAt := now }, none) := by
  simp [InventoryItem.createReservation, h]

/-- C1: every reachable state of an inventory item — any sequence of
successful `createReservation` calls starting from an empty reservation
collection — has pairwise non-overlapping reservations, regardless of the
reservations' users. -/
theorem reachable_no_overlap (item : InventoryItem) (h : Reachable item) :
    pairwiseNonOverlapping item.reservations := by
  induction h with
  | init id v u => exact List.Pairwise.nil
  | step item item' s e uid now _ hstep ih =>
    by_cases hc :
        (item.reservations.any fun r => overlaps r.interval ⟨s, e⟩) = true
    · simp [InventoryItem.createReservation, hc] at hstep
    · rw [Bool.not_eq_true] at hc
      rw [createReservation_of_any_eq_false item s e uid now hc] at hstep
      have h1 : ({ item with
          reservations := item.reservations ++ [⟨s, e, uid, item.id⟩],
          updatedAt := now } : InventoryItem) = item' :=
        congrArg Prod.fst hstep
      subst h1
      unfold pairwiseNonOverlapping at ih ⊢
      rw [show ({ item with
          reservations := item.reservations ++ [⟨s, e, uid, item.id⟩],
          updatedAt := now } : InventoryItem).reservations =
            item.reservations ++ [⟨s, e, uid, item.id⟩] from rfl]
      rw [List.pairwise_append]
      refine ⟨ih, by simp, ?_⟩
      intro a ha b hb
      rw [List.mem_singleton] at hb
      subst hb
      rw [List.any_eq_false] at hc
      simpa [Reservation.interval] using hc a ha

/-- Witness for C1: the state holding the single reservation `[0,10)` is
reachable in one successful step from the empty state, and its reservation
list is pairwise non-overlapping. -/
theorem reachable_no_overlap_witness :
    pairwiseNonOverlapping
      (InventoryItem.mk 1 1 5 [⟨0, 10, 7, 1⟩]).reservations :=
  reachable_no_overlap ⟨1, 1, 5, [⟨0, 10, 7, 1⟩]⟩
    (Reachable.step ⟨1, 1, 0, []⟩ ⟨1, 1, 5, [⟨0, 10, 7, 1⟩]⟩ 0 10 7 5
      (Reachable.init 1 1 0) rfl)

/-- One retry-loop step on a successful attempt. -/
theorem executeWithRetryAux_ok_step (run : Nat → AttemptResult) (i n : Nat)
    (h : run i = AttemptResult.ok) :
    executeWithRetryAux run i (n + 1) = (RetryResult.ok, 1) := by
  simp only [executeWithRetryAux, h]

/-- One retry-loop step on an attempt hitting a business overlap. -/
theorem executeWithRetryAux_overlap_step (run : Nat → AttemptResult)
    (i n : Nat) (h : run i = AttemptResult.overlapConflict) :
    executeWithRetryAux run i (n + 1) = (RetryResult.overlapConflict, 1) := by
  simp only [executeWithRetryAux, h]

/-- One retry-loop step on an attempt hitting the optimistic-lock
conflict: the snapshot is discarded and the loop re-runs from a fresh load
with one unit of budget consumed. -/
theorem executeWithRetryAux_optLock_step (run : Nat → AttemptResult)
    (i n : Nat) (h : run i = AttemptResult.optimisticLockConflict) :
    executeWithRetryAux run i (n + 1) =
      ((executeWithRetryAux run (i + 1) n).1,
        (executeWithRetryAux run (i + 1) n).2 + 1) := by
  simp only [executeWithRetryAux, h]

/-- With a positive budget, the retry loop performs at least one load. -/
theorem executeWithRetryAux_loads_pos (run : Nat → AttemptResult)
    (i n : Nat) (h : 0 < n) : 0 < (executeWithRetryAux run i n).2 := by
  obtain ⟨m, rfl⟩ : ∃ m, n = m + 1 := ⟨n - 1, by omega⟩
  cases hr : run i
  · rw [executeWithRetryAux_ok_step run i m hr]
    exact Nat.one_pos
  · rw [executeWithRetryAux_optLock_step run i m hr]
    exact Nat.succ_pos _
  · rw [executeWithRetryAux_overlap_step run i m hr]
    exact Nat.one_pos

/-- The retry loop only ever surfaces success, the business overlap
conflict, or exhaustion wrapping the optimistic-lock conflict. -/
theorem executeWithRetryAux_result_shape (run : Nat → AttemptResult)
    (n : Nat) : ∀ i,
    (executeWithRetryAux run i n).1 = RetryResult.ok
    ∨ (executeWithRetryAux run i n).1 = RetryResult.overlapConflict
    ∨ (executeWithRetryAux run i n).1 =
        RetryResult.retryExhausted AttemptResult.optimisticLockConflict := by
  induction n with
  | zero => intro i; right; right; rfl
  | succ n ih =>
    intro i
    cases hr : run i
    · rw [executeWithRetryAux_ok_step run i n hr]
      left; rfl
    · rw [executeWithRetryAux_optLock_step run i n hr]
      exact ih (i + 1)
    · rw [executeWithRetryAux_overlap_step run i n hr]
      right; left; rfl

/-- A run of optimistic-lock conflicts on attempts `i, …, i + k` within
the budget forces the loop to start at least `k + 2` fresh attempts, each
beginning with a load. -/
theorem executeWithRetryAux_optLock_prefix_loads (run : Nat → AttemptResult)
    (k : Nat) : ∀ i n,
    (∀ j, j ≤ k → run (i + j) = AttemptResult.optimisticLockConflict) →
    k + 1 < n →
    k + 2 ≤ (executeWithRetryAux run i n).2 := by
  induction k with
  | zero =>
    intro i n h hn
    obtain ⟨m, rfl⟩ : ∃ m, n = m + 2 := ⟨n - 2, by omega⟩
    have h0 : run i = AttemptResult.optimisticLockConflict := by
      simpa using h 0 (Nat.le_refl 0)
    rw [executeWithRetryAux_optLock_step run i (m + 1) h0]
    have hp := executeWithRetryAux_loads_pos run (i + 1) (m + 1) (by omega)
    show 2 ≤ (executeWithRetryAux run (i + 1) (m + 1)).2 + 1
    omega
  | succ k ih =>
    intro i n h hn
    obtain ⟨m, rfl⟩ : ∃ m, n = m + 1 := ⟨n - 1, by omega⟩
    have h0 : run i = AttemptResult.optimisticLockConflict := by
      simpa using h 0 (by omega)
    rw [executeWithRetryAux_optLock_step run i m h0]
    have hih := ih (i + 1) m
      (fun j hj => by
        have hh := h (j + 1) (by omega)
        rw [show i + 1 + j = i + (j + 1) from by omega]
        exact hh)
      (by omega)
    show k + 1 + 2 ≤ (executeWithRetryAux run (i + 1) m).2 + 1
    omega

/-- Optimistic-lock conflicts on attempts `i, …, i + k - 1` followed by a
business overlap on attempt `i + k`, within the budget, make the loop stop
at that attempt and surface the overlap conflict after exactly `k + 1`
loads. -/
theorem executeWithRetryAux_overlap_stops (run : Nat → AttemptResult)
    (k : Nat) : ∀ i n,
    (∀ j, j < k → run (i + j) = AttemptResult.optimisticLockConflict) →
    run (i + k) = AttemptResult.overlapConflict →
    k < n →
    executeWithRetryAux run i n = (RetryResult.overlapConflict, k + 1) := by
  induction k with
  | zero =>
    intro i n hpre hk hn
    obtain ⟨m, rfl⟩ : ∃ m, n = m + 1 := ⟨n - 1, by omega⟩
    rw [executeWithRetryAux_overlap_step run i m (by simpa using hk)]
  | succ k ih =>
    intro i n hpre hk hn
    obtain ⟨m, rfl⟩ : ∃ m, n = m + 1 := ⟨n - 1, by omega⟩
    have h0 : run i = AttemptResult.optimisticLockConflict := by
      simpa using hpre 0 (by omega)
    rw [executeWithRetryAux_optLock_step run i m h0]
    rw [ih (i + 1) m
      (fun j hj => by
        have hh := hpre (j + 1) (by omega)
        rw [show i + 1 + j = i + (j + 1) from by omega]
        exact hh)
      (by rw [show i + 1 + k = i + (k + 1) from by omega]; exact hk)
      (by omega)]

/-- C4: the retry orchestrator (i) re-executes the load-mutate-commit
cycle from a fresh load after each optimistic-lock conflict while budget
remains — `k + 1` consecutive conflicts within the budget force at least
`k + 2` load attempts; (ii) stops immediately at a business overlap
conflict, surfacing it to the caller after exactly the loads already
performed, never retrying it; and (iii) never surfaces an optimistic-lock
conflict directly — the result is success, the overlap conflict, or
`RetryExhausted` wrapping the optimistic-lock conflict. -/
theorem executeWithRetry_conflict_policy (run : Nat → AttemptResult)
    (maxAttempts k : Nat) :
    ((∀ j, j ≤ k → run j = AttemptResult.optimisticLockConflict) →
      k + 1 < maxAttempts →
      k + 2 ≤ (executeWithRetry run maxAttempts).2)
    ∧ ((∀ j, j < k → run j = AttemptResult.optimisticLockConflict) →
      run k = AttemptResult.overlapConflict →
      k < maxAttempts →
      executeWithRetry run maxAttempts = (RetryResult.overlapConflict, k + 1))
    ∧ ((executeWithRetry run maxAttempts).1 = RetryResult.ok
      ∨ (executeWithRetry run maxAttempts).1 = RetryResult.overlapConflict
      ∨ (executeWithRetry run maxAttempts).1 =
          RetryResult.retryExhausted AttemptResult.optimisticLockConflict) := by
  refine ⟨?_, ?_, ?_⟩
  · intro h hn
    exact executeWithRetryAux_optLock_prefix_loads run k 0 maxAttempts
      (fun j hj => by simpa using h j hj) hn
  · intro hpre hk hn
    exact executeWithRetryAux_overlap_stops run k 0 maxAttempts
      (fun j hj => by simpa using hpre j hj) (by simpa using hk) hn
  · exact executeWithRetryAux_result_shape run maxAttempts 0

/-- Witness for C4: a run hitting the optimistic-lock conflict on attempt
0 and a business overlap on attempt 1 makes the orchestrator re-load once
and surface the overlap conflict after exactly 2 loads. -/
theorem executeWithRetry_conflict_policy_witness :
    executeWithRetry
      (fun i => if i = 0 then AttemptResult.optimisticLockConflict
        else AttemptResult.overlapConflict) 3 =
      (RetryResult.overlapConflict, 2) :=
  (executeWithRetry_conflict_policy
    (fun i => if i = 0 then AttemptResult.optimisticLockConflict
      else AttemptResult.overlapConflict) 3 1).2.1
    (by decide) (by decide) (by decide)

end TechGuide
